import Mathlib

/-!
Verification of the `eh` (escape hatch) Go library: a Rust-style `Result`
container, a propagation operator `Eh` that panics with a mechanism-tagged
wrapper `ehError` on failure, a deferred boundary marker `EscapeHatch` that
recovers only mechanism-tagged panics into a bound `Result` slot, and a
handler chain (`CatchError` / `Fallback`) built from deferred exit actions.

The embedding models:
  - Go `error` values as `GoError` (identity comparison plus wrapping, so
    that `errors.Is` is expressible);
  - Go panic values as `PanicValue` (an `ehError`-wrapped error, a bare
    error, a string, or any other value);
  - one function's panic/unwind status as `Option PanicValue` (`none` means
    no panic is unwinding);
  - a deferred exit action as a transformer of the pair
    (panic status, bound Result slot), and a function body with deferred
    actions as `runFunc`, which runs the registered actions in LIFO order
    exactly as Go `defer` does;
  - Go zero values via `Inhabited.default`.
-/

namespace Eh

/-- A Go `error` value: either a fresh sentinel (as made by `errors.New` /
`fmt.Errorf`, identified by a tag) or a wrapping of an inner error. -/
inductive GoError where
  | new (id : Nat)
  | wrap (id : Nat) (inner : GoError)
deriving DecidableEq

/-- `errors.Is err target`: true when `err` equals `target` or some error in
the unwrap chain of `err` equals `target`. -/
def errorsIs : GoError → GoError → Bool
  | e@(.new _), target => e == target
  | e@(.wrap _ inner), target => e == target || errorsIs inner target

/-- A Go panic value, as far as this library can observe it: the
mechanism-tagged wrapper `ehError{err}` thrown by `Eh`, a bare `error`
(thrown by `MustUnwrap`), a string (thrown by `MustUnwrapErr`), or any
unrelated panic value. -/
inductive PanicValue where
  | ehErrorPanic (e : GoError)
  | errPanic (e : GoError)
  | strPanic (s : String)
  | otherPanic (n : Nat)
deriving DecidableEq

/-- The type assertion `r.(ehError)` in `EscapeHatch`: does the recovered
panic value carry the mechanism tag? -/
def PanicValue.isEhError : PanicValue → Bool
  | .ehErrorPanic _ => true
  | _ => false

/-- `Result[T]`: struct with an `Ok` payload and an `Err` field; the Go
`nil` error is `none`. -/
structure Result (T : Type) where
  Ok : T
  Err : Option GoError
deriving DecidableEq

/-- `NewResult(val, err)` builds `Result[T]{val, err}`. -/
def NewResult {T : Type} (val : T) (err : Option GoError) : Result T :=
  ⟨val, err⟩

/-- `FromFailable(err)` returns `Result[any]{0, err}`: the payload slot of
type `any` holds the boxed integer `0`. `GoAny` models Go's `any`. -/
inductive GoAny where
  | nil
  | int (n : Int)
  | str (s : String)
deriving DecidableEq

instance : Inhabited GoAny := ⟨GoAny.nil⟩

def FromFailable (err : Option GoError) : Result GoAny :=
  ⟨GoAny.int 0, err⟩

/-- `Eh()`: if `r.Err != nil`, panic with `ehError{r.Err}`; else return
`r.Ok`. A panic is an `Except.error` carrying the panic value. -/
def Result.Eh {T : Type} (r : Result T) : Except PanicValue T :=
  match r.Err with
  | some e => .error (.ehErrorPanic e)
  | none => .ok r.Ok

/-- `IsOk()`: true when `r.Err == nil`. -/
def Result.IsOk {T : Type} (r : Result T) : Bool :=
  r.Err.isNone

/-- `IsErr()`: true when `r.Err != nil`. -/
def Result.IsErr {T : Type} (r : Result T) : Bool :=
  r.Err.isSome

/-- `MustUnwrap()`: return `r.Ok`, or panic with the bare error `r.Err`
(not wrapped in `ehError`). -/
def Result.MustUnwrap {T : Type} (r : Result T) : Except PanicValue T :=
  match r.Err with
  | some e => .error (.errPanic e)
  | none => .ok r.Ok

/-- `MustUnwrapErr()`: return `r.Err`, or panic with a string when there is
no error. -/
def Result.MustUnwrapErr {T : Type} (r : Result T) :
    Except PanicValue GoError :=
  match r.Err with
  | some e => .ok e
  | none => .error (.strPanic "expected the result to contain error")

/-- `Unwrap()`: return the pair `(r.Ok, r.Err)`; never panics. -/
def Result.Unwrap {T : Type} (r : Result T) : T × Option GoError :=
  (r.Ok, r.Err)

/-- `EscapeHatch(res)` as a deferred exit action: given the panic status
and the current value of the bound slot, `recover()`; if nothing was
panicking, no-op; if the recovered value is an `ehError`, write
`Result[T]{Err: err.error}` (payload left at the zero value) into the slot
and stop the unwinding; otherwise re-panic with the same value. -/
def EscapeHatch {T : Type} [Inhabited T] (st : Option PanicValue)
    (res : Result T) : Option PanicValue × Result T :=
  match st with
  | none => (none, res)
  | some p =>
    match p with
    | .ehErrorPanic e => (none, ⟨default, some e⟩)
    | _ => (some p, res)

/-- Evaluation of `*res = Result[T]{Ok: catcher(err)}` inside
`CatchError`'s deferred closure: if the catcher returns normally the slot
becomes `Ok` of its value; if the catcher itself panics, the new panic
value supersedes the current status and the slot is not written. -/
def applyCatcher {T : Type} (st : Option PanicValue) (res : Result T) :
    Except PanicValue T → Option PanicValue × Result T
  | .ok v => (st, ⟨v, none⟩)
  | .error p => (some p, res)

/-- The anonymous function deferred first inside `CatchError` (so it runs
last): if the slot is `Ok`, return; else take the error; if `when` is the
nil slice, always invoke the catcher (catch-all); else invoke the catcher
only when `errors.Is(err, target)` holds for some listed target, leaving
the slot untouched otherwise. `when = none` models the nil variadic slice,
`when = some l` a non-nil slice with elements `l`. -/
def catchTail {T : Type} (st : Option PanicValue) (res : Result T)
    (catcher : GoError → Except PanicValue T)
    (when : Option (List GoError)) : Option PanicValue × Result T :=
  match res.Err with
  | none => (st, res)
  | some err =>
    match when with
    | none => applyCatcher st res (catcher err)
    | some targets =>
      if targets.any (errorsIs err) then applyCatcher st res (catcher err)
      else (st, res)

/-- `CatchError(res, catcher, when...)` as a deferred exit action. Its body
recovers and immediately re-panics (status unchanged), then its own defers
run in LIFO order: first the inner `EscapeHatch(res)`, then the matching
closure `catchTail`. -/
def CatchError {T : Type} [Inhabited T] (st : Option PanicValue)
    (res : Result T) (catcher : GoError → Except PanicValue T)
    (when : Option (List GoError)) : Option PanicValue × Result T :=
  let s := EscapeHatch st res
  catchTail s.1 s.2 catcher when

/-- `Fallback(res, fallback, when...)`: its body recovers and re-panics
(status unchanged) and its single deferred call delegates to `CatchError`
with the constant catcher `func(_ error) T { return fallback }`. -/
def Fallback {T : Type} [Inhabited T] (st : Option PanicValue)
    (res : Result T) (fallback : T) (when : Option (List GoError)) :
    Option PanicValue × Result T :=
  CatchError st res (fun _ => .ok fallback) when

/-- A deferred exit action bound to a function's named `Result` slot. -/
def DeferAction (T : Type) : Type :=
  Option PanicValue → Result T → Option PanicValue × Result T

/-- `EscapeHatch` as a registered defer. -/
def escapeHatchDefer {T : Type} [Inhabited T] : DeferAction T :=
  fun st res => EscapeHatch st res

/-- `CatchError` as a registered defer. -/
def catchErrorDefer {T : Type} [Inhabited T]
    (catcher : GoError → Except PanicValue T)
    (when : Option (List GoError)) : DeferAction T :=
  fun st res => CatchError st res catcher when

/-- `Fallback` as a registered defer. -/
def fallbackDefer {T : Type} [Inhabited T] (fallback : T)
    (when : Option (List GoError)) : DeferAction T :=
  fun st res => Fallback st res fallback when

/-- Run registered defers in Go order: the list is in registration order
and Go runs deferred calls last-registered-first, each seeing the panic
status and slot left by the previous one. -/
def runDefers {T : Type} (ds : List (DeferAction T))
    (st : Option PanicValue) (res : Result T) :
    Option PanicValue × Result T :=
  match ds with
  | [] => (st, res)
  | d :: rest =>
    let s := runDefers rest st res
    d s.1 s.2

/-- A Go function with a named `Result[T]` output slot and registered
defers: the slot starts at the zero value; if the body returns normally
its value is assigned to the slot, if it panics the slot keeps the zero
value and the panic unwinds; then the defers run; the function returns the
slot when no panic remains, and otherwise the panic escapes. -/
def runFunc {T : Type} [Inhabited T] (ds : List (DeferAction T))
    (body : Except PanicValue (Result T)) :
    Except PanicValue (Result T) :=
  let init : Option PanicValue × Result T :=
    match body with
    | .ok r => (none, r)
    | .error p => (some p, ⟨default, none⟩)
  let fin := runDefers ds init.1 init.2
  match fin.1 with
  | none => .ok fin.2
  | some p => .error p

/-- A body that evaluates `r.Eh()` and, when that returns normally, returns
`Result[T]{Ok: value}`. -/
def ehBody {T : Type} (r : Result T) : Except PanicValue (Result T) :=
  match r.Eh with
  | .ok v => .ok ⟨v, none⟩
  | .error p => .error p

end Eh

namespace Eh

/-- Claim C1: for every Result in Err state, the propagation operator `Eh`
never returns normally: it raises a mechanism-tagged panic (`ehError`
wrapping the descriptor), and a deferred `EscapeHatch` bound to the
enclosing function's named output slot absorbs it, so the enclosing
function returns an Err Result with the same failure descriptor and the
payload type's default (zero) payload. -/
theorem eh_err_never_returns_and_hatch_absorbs {T : Type} [Inhabited T]
    (r : Result T) (e : GoError) (h : r.Err = some e) :
    r.Eh = Except.error (PanicValue.ehErrorPanic e) ∧
    runFunc [escapeHatchDefer] (ehBody r) =
      Except.ok ⟨default, some e⟩ := by
  constructor
  · simp [Result.Eh, h]
  · simp [runFunc, runDefers, escapeHatchDefer, EscapeHatch, ehBody,
      Result.Eh, h]

theorem eh_err_never_returns_and_hatch_absorbs_witness :
    (⟨5, some (GoError.new 1)⟩ : Result Int).Err = some (GoError.new 1) ∧
    ((⟨5, some (GoError.new 1)⟩ : Result Int).Eh =
        Except.error (PanicValue.ehErrorPanic (GoError.new 1)) ∧
      runFunc [escapeHatchDefer]
          (ehBody (⟨5, some (GoError.new 1)⟩ : Result Int)) =
        Except.ok ⟨default, some (GoError.new 1)⟩) :=
  ⟨rfl, eh_err_never_returns_and_hatch_absorbs _ _ rfl⟩

/-- Claim C2: for every Result in Ok state (`Err` is nil), `Eh` returns the
contained payload and causes no panic, whatever the payload is. -/
theorem eh_ok_returns_payload {T : Type} (r : Result T)
    (h : r.Err = none) : r.Eh = Except.ok r.Ok := by
  simp [Result.Eh, h]

theorem eh_ok_returns_payload_witness :
    (⟨0, none⟩ : Result Int).Err = none ∧
    (⟨0, none⟩ : Result Int).Eh = Except.ok 0 :=
  ⟨rfl, eh_ok_returns_payload _ rfl⟩

/-- Claim C3: `EscapeHatch` absorbs a panic exactly when it is
mechanism-tagged: a recovered value that is not an `ehError` is re-raised
unchanged and the bound slot is not written; with no panic unwinding it is
a no-op; an `ehError` panic is absorbed into an Err Result. -/
theorem escape_hatch_absorbs_only_tagged {T : Type} [Inhabited T]
    (res : Result T) :
    (∀ p : PanicValue, p.isEhError = false →
      EscapeHatch (some p) res = (some p, res)) ∧
    EscapeHatch (none : Option PanicValue) res = (none, res) ∧
    (∀ e : GoError,
      EscapeHatch (some (PanicValue.ehErrorPanic e)) res =
        (none, ⟨default, some e⟩)) := by
  refine ⟨fun p hp => ?_, rfl, fun e => rfl⟩
  cases p with
  | ehErrorPanic e => simp [PanicValue.isEhError] at hp
  | errPanic e => rfl
  | strPanic s => rfl
  | otherPanic n => rfl

theorem escape_hatch_absorbs_only_tagged_witness :
    EscapeHatch (some (PanicValue.errPanic (GoError.new 1)))
        (⟨3, none⟩ : Result Int) =
      (some (PanicValue.errPanic (GoError.new 1)), ⟨3, none⟩) :=
  (escape_hatch_absorbs_only_tagged (⟨3, none⟩ : Result Int)).1
    (PanicValue.errPanic (GoError.new 1)) rfl

/-- Claim C4: handlers fire in reverse-of-registration (LIFO) order: with
H1 registered first and H2 second, when both target the unwinding failure
H2 recovers and H1 never fires (the outcome does not depend on H1's
catcher); when H2's targets do not match but H1's do, H1 recovers. -/
theorem handlers_fire_lifo {T : Type} [Inhabited T] (e : GoError)
    (v1 v2 : T) :
    (∀ (w1 w2 : List GoError) (c1 : GoError → Except PanicValue T),
      w1.any (errorsIs e) = true → w2.any (errorsIs e) = true →
      runFunc [escapeHatchDefer, catchErrorDefer c1 (some w1),
          catchErrorDefer (fun _ => Except.ok v2) (some w2)]
        (Except.error (PanicValue.ehErrorPanic e)) =
      Except.ok ⟨v2, none⟩) ∧
    (∀ (w1 w2 : List GoError) (c2 : GoError → Except PanicValue T),
      w1.any (errorsIs e) = true → w2.any (errorsIs e) = false →
      runFunc [escapeHatchDefer, catchErrorDefer (fun _ => Except.ok v1)
          (some w1), catchErrorDefer c2 (some w2)]
        (Except.error (PanicValue.ehErrorPanic e)) =
      Except.ok ⟨v1, none⟩) := by
  constructor
  · intro w1 w2 c1 h1 h2
    simp [runFunc, runDefers, escapeHatchDefer, catchErrorDefer,
      CatchError, catchTail, applyCatcher, EscapeHatch, h2]
  · intro w1 w2 c2 h1 h2
    simp [runFunc, runDefers, escapeHatchDefer, catchErrorDefer,
      CatchError, catchTail, applyCatcher, EscapeHatch, h1, h2]

theorem handlers_fire_lifo_witness :
    ([GoError.new 1].any (errorsIs (GoError.new 1)) = true ∧
      runFunc [escapeHatchDefer,
          catchErrorDefer (fun _ => Except.ok (999 : Int))
            (some [GoError.new 1]),
          catchErrorDefer (fun _ => Except.ok 20) (some [GoError.new 1])]
        (Except.error (PanicValue.ehErrorPanic (GoError.new 1))) =
      Except.ok ⟨20, none⟩) ∧
    ([GoError.new 2].any (errorsIs (GoError.new 1)) = false ∧
      runFunc [escapeHatchDefer,
          catchErrorDefer (fun _ => Except.ok (10 : Int))
            (some [GoError.new 1]),
          catchErrorDefer (fun _ => Except.ok 999) (some [GoError.new 2])]
        (Except.error (PanicValue.ehErrorPanic (GoError.new 1))) =
      Except.ok ⟨10, none⟩) :=
  ⟨⟨by decide,
      (handlers_fire_lifo (GoError.new 1) 10 20).1 [GoError.new 1]
        [GoError.new 1] (fun _ => Except.ok 999) (by decide) (by decide)⟩,
    ⟨by decide,
      (handlers_fire_lifo (GoError.new 1) 10 20).2 [GoError.new 1]
        [GoError.new 2] (fun _ => Except.ok 999) (by decide) (by decide)⟩⟩

/-- Claim C5 (corrected): the catch-all behavior is decided by the `when`
variadic slice being nil (no targets passed at the call site), not by it
being empty: with a nil slice and an Err-state bound Result, the catcher
is always invoked and the slot becomes Ok of its value, for every failure
descriptor; the same holds for `Fallback` with its fallback value. -/
theorem catch_all_fires_for_nil_targets {T : Type} [Inhabited T]
    (res : Result T) (e : GoError) (v : T)
    (catcher : GoError → Except PanicValue T)
    (h : res.Err = some e) (hc : catcher e = Except.ok v) :
    CatchError (none : Option PanicValue) res catcher none =
      (none, ⟨v, none⟩) ∧
    Fallback (none : Option PanicValue) res v none = (none, ⟨v, none⟩) := by
  constructor
  · simp [CatchError, catchTail, applyCatcher, EscapeHatch, h, hc]
  · simp [Fallback, CatchError, catchTail, applyCatcher, EscapeHatch, h]

theorem catch_all_fires_for_nil_targets_witness :
    ((⟨0, some (GoError.new 1)⟩ : Result Int).Err = some (GoError.new 1) ∧
      (fun _ => (Except.ok 42 : Except PanicValue Int)) (GoError.new 1) =
        Except.ok 42) ∧
    (CatchError (none : Option PanicValue)
        (⟨0, some (GoError.new 1)⟩ : Result Int)
        (fun _ => Except.ok 42) none = (none, ⟨42, none⟩) ∧
      Fallback (none : Option PanicValue)
        (⟨0, some (GoError.new 1)⟩ : Result Int) 42 none =
        (none, ⟨42, none⟩)) :=
  ⟨⟨rfl, rfl⟩,
    catch_all_fires_for_nil_targets _ (GoError.new 1) 42 _ rfl rfl⟩

/-- Counterexample to claim C5 as stated: a non-nil but empty target slice
is not treated as catch-all. With the bound Result in Err state and
`when` the empty non-nil slice, the catcher is not invoked and the Result
stays Err with the original descriptor instead of becoming Ok 42. -/
theorem catch_all_empty_slice_counterexample :
    (CatchError (none : Option PanicValue)
        (⟨0, some (GoError.new 1)⟩ : Result Int)
        (fun _ => Except.ok 42) (some [])).2 =
      ⟨0, some (GoError.new 1)⟩ ∧
    (CatchError (none : Option PanicValue)
        (⟨0, some (GoError.new 1)⟩ : Result Int)
        (fun _ => Except.ok 42) (some [])).2 ≠ ⟨42, none⟩ := by
  constructor
  · rfl
  · decide

/-- Claim C6: a handler with a non-empty target list none of whose entries
the current failure equals or wraps leaves the bound Result unchanged (Err
persists with the original descriptor) and never invokes the catcher: the
outcome is the untouched input for every catcher. -/
theorem unmatched_targets_leave_result {T : Type} [Inhabited T]
    (res : Result T) (e : GoError) (ts : List GoError) (v : T)
    (catcher : GoError → Except PanicValue T) (_hne : ts ≠ [])
    (h : res.Err = some e) (hm : ts.any (errorsIs e) = false) :
    CatchError (none : Option PanicValue) res catcher (some ts) =
      (none, res) ∧
    Fallback (none : Option PanicValue) res v (some ts) = (none, res) := by
  constructor
  · simp [CatchError, catchTail, EscapeHatch, h, hm]
  · simp [Fallback, CatchError, catchTail, EscapeHatch, h, hm]

theorem unmatched_targets_leave_result_witness :
    ([GoError.new 2] ≠ ([] : List GoError) ∧
      (⟨7, some (GoError.new 1)⟩ : Result Int).Err =
        some (GoError.new 1) ∧
      [GoError.new 2].any (errorsIs (GoError.new 1)) = false) ∧
    (CatchError (none : Option PanicValue)
        (⟨7, some (GoError.new 1)⟩ : Result Int)
        (fun _ => Except.ok 42) (some [GoError.new 2]) =
      (none, ⟨7, some (GoError.new 1)⟩) ∧
    Fallback (none : Option PanicValue)
        (⟨7, some (GoError.new 1)⟩ : Result Int) 42
        (some [GoError.new 2]) =
      (none, ⟨7, some (GoError.new 1)⟩)) :=
  ⟨⟨by decide, rfl, by decide⟩,
    unmatched_targets_leave_result _ (GoError.new 1) _ 42
      (fun _ => Except.ok 42) (by decide) rfl (by decide)⟩

/-- Claim C7: `MustUnwrap` on an Err Result panics with the bare failure
descriptor and `MustUnwrapErr` on an Ok Result panics with a string; both
panic values are not `ehError`-tagged, so they propagate past every
`EscapeHatch`, `CatchError` (with a normally-returning catcher) and
`Fallback` instead of being absorbed. -/
theorem fatal_faults_propagate {T : Type} [Inhabited T] (r s : Result T)
    (e : GoError) :
    (r.Err = some e →
      r.MustUnwrap = Except.error (PanicValue.errPanic e) ∧
      (PanicValue.errPanic e).isEhError = false) ∧
    (r.Err = none →
      r.MustUnwrapErr =
        Except.error
          (PanicValue.strPanic "expected the result to contain error") ∧
      (PanicValue.strPanic
          "expected the result to contain error").isEhError = false) ∧
    (∀ p : PanicValue, p.isEhError = false →
      (EscapeHatch (some p) s).1 = some p ∧
      (∀ (f : GoError → T) (w : Option (List GoError)),
        (CatchError (some p) s (fun x => Except.ok (f x)) w).1 =
          some p) ∧
      (∀ (v : T) (w : Option (List GoError)),
        (Fallback (some p) s v w).1 = some p)) := by
  refine ⟨fun h => ⟨by simp [Result.MustUnwrap, h], rfl⟩,
    fun h => ⟨by simp [Result.MustUnwrapErr, h], rfl⟩,
    fun p hp => ?_⟩
  have hesc : EscapeHatch (some p) s = (some p, s) := by
    cases p with
    | ehErrorPanic e => simp [PanicValue.isEhError] at hp
    | errPanic e => rfl
    | strPanic str => rfl
    | otherPanic n => rfl
  refine ⟨by rw [hesc], fun f w => ?_, fun v w => ?_⟩
  · rw [CatchError, hesc]
    cases hse : s.Err with
    | none => simp [catchTail, hse]
    | some err =>
      cases w with
      | none => simp [catchTail, hse, applyCatcher]
      | some ts =>
        by_cases hany : ts.any (errorsIs err) = true
        · simp [catchTail, hse, hany, applyCatcher]
        · simp [catchTail, hse, hany]
  · rw [Fallback, CatchError, hesc]
    cases hse : s.Err with
    | none => simp [catchTail, hse]
    | some err =>
      cases w with
      | none => simp [catchTail, hse, applyCatcher]
      | some ts =>
        by_cases hany : ts.any (errorsIs err) = true
        · simp [catchTail, hse, hany, applyCatcher]
        · simp [catchTail, hse, hany]

theorem fatal_faults_propagate_witness :
    ((⟨0, some (GoError.new 1)⟩ : Result Int).Err = some (GoError.new 1) ∧
      ((⟨0, some (GoError.new 1)⟩ : Result Int).MustUnwrap =
          Except.error (PanicValue.errPanic (GoError.new 1)) ∧
        (PanicValue.errPanic (GoError.new 1)).isEhError = false)) ∧
    ((PanicValue.errPanic (GoError.new 1)).isEhError = false ∧
      (CatchError (some (PanicValue.errPanic (GoError.new 1)))
          (⟨4, none⟩ : Result Int) (fun _ => Except.ok 9) none).1 =
        some (PanicValue.errPanic (GoError.new 1))) :=
  ⟨⟨rfl,
      (fatal_faults_propagate (⟨0, some (GoError.new 1)⟩ : Result Int)
          (⟨4, none⟩ : Result Int) (GoError.new 1)).1 rfl⟩,
    ⟨rfl,
      (((fatal_faults_propagate (⟨0, some (GoError.new 1)⟩ : Result Int)
            (⟨4, none⟩ : Result Int) (GoError.new 1)).2.2
          (PanicValue.errPanic (GoError.new 1)) rfl).2.1
        (fun _ => 9) none)⟩⟩

/-- Claim C8: a handler whose catcher itself raises a different
mechanism-tagged failure does not absorb it: the new panic propagates
outward past this handler, and an enclosing handler targeting the new
descriptor processes it (here recovering to its own value). -/
theorem handler_failure_translation_propagates {T : Type} [Inhabited T]
    (e1 e2 : GoError) (v2 : T) (w1 w2 : List GoError) (s : Result T)
    (h1 : w1.any (errorsIs e1) = true)
    (h2 : w2.any (errorsIs e2) = true) :
    CatchError (some (PanicValue.ehErrorPanic e1)) s
        (fun _ => Except.error (PanicValue.ehErrorPanic e2)) (some w1) =
      (some (PanicValue.ehErrorPanic e2), ⟨default, some e1⟩) ∧
    runFunc [escapeHatchDefer, catchErrorDefer (fun _ => Except.ok v2)
        (some w2),
        catchErrorDefer (fun _ => Except.error (PanicValue.ehErrorPanic e2))
          (some w1)]
      (Except.error (PanicValue.ehErrorPanic e1)) =
      Except.ok ⟨v2, none⟩ := by
  constructor
  · simp [CatchError, catchTail, applyCatcher, EscapeHatch, h1]
  · simp [runFunc, runDefers, escapeHatchDefer, catchErrorDefer,
      CatchError, catchTail, applyCatcher, EscapeHatch, h1, h2]

theorem handler_failure_translation_propagates_witness :
    ([GoError.new 1].any (errorsIs (GoError.new 1)) = true ∧
      [GoError.new 2].any (errorsIs (GoError.new 2)) = true) ∧
    (CatchError (some (PanicValue.ehErrorPanic (GoError.new 1)))
        (⟨0, none⟩ : Result Int)
        (fun _ => Except.error (PanicValue.ehErrorPanic (GoError.new 2)))
        (some [GoError.new 1]) =
      (some (PanicValue.ehErrorPanic (GoError.new 2)),
        ⟨default, some (GoError.new 1)⟩) ∧
    runFunc [escapeHatchDefer,
        catchErrorDefer (fun _ => Except.ok (100 : Int))
          (some [GoError.new 2]),
        catchErrorDefer
          (fun _ => Except.error (PanicValue.ehErrorPanic (GoError.new 2)))
          (some [GoError.new 1])]
      (Except.error (PanicValue.ehErrorPanic (GoError.new 1))) =
      Except.ok ⟨100, none⟩) :=
  ⟨⟨by decide, by decide⟩,
    handler_failure_translation_propagates (GoError.new 1) (GoError.new 2)
      100 [GoError.new 1] [GoError.new 2] (⟨0, none⟩ : Result Int)
      (by decide) (by decide)⟩

/-- Claim C9: `Fallback(slot, v, targets...)` behaves identically to
`CatchError(slot, recoveryFn, targets...)` with the constant recovery
function returning `v`: same panic status and same resulting Result for
every panic status, slot value and target list. -/
theorem fallback_is_catch_error_with_const {T : Type} [Inhabited T]
    (st : Option PanicValue) (res : Result T) (v : T)
    (when : Option (List GoError)) :
    Fallback st res v when =
      CatchError st res (fun _ => Except.ok v) when := rfl

/-- Claim C10: `FromFailable` stores the boxed integer `0` in the `any`
payload slot, not the zero value of `any` (nil): for every error the
payload is `0`, and `FromFailable nil` is an Ok-state Result with payload
`0`, not nil. -/
theorem from_failable_stores_int_zero (err : Option GoError) :
    (FromFailable err).Ok = GoAny.int 0 ∧
    (FromFailable err).Ok ≠ (default : GoAny) ∧
    (FromFailable none).Err = none := by
  refine ⟨rfl, ?_, rfl⟩
  show GoAny.int 0 ≠ GoAny.nil
  decide

end Eh
